import Mathlib

/-!
Shallow embedding of the booking engine of the uzinfocom_rent_car_system
repository (Django app "rentals", with the user/vehicle/station records it
touches).  Timestamps are modelled as integer minutes; the calendar date of a
timestamp is its floor-division by 1440, so the whole-day difference computed
by Python's date subtraction is a difference of floor-divisions.  Decimal
amounts are modelled as integers (cents).  Each HTTP handler becomes a total
function from a database state to Except ApiError (new state); an error result
corresponds to an error response with the enclosing transaction rolled back,
so the stored state is unchanged exactly when the result is an error.
-/

namespace RentCar

inductive Role where
  | client
  | manager
deriving DecidableEq

inductive VehicleStatus where
  | available
  | rented
  | maintenance
deriving DecidableEq

inductive RentalStatus where
  | pending
  | active
  | completed
  | cancelled
deriving DecidableEq

inductive ReservationStatus where
  | pending
  | confirmed
  | cancelled
deriving DecidableEq

/-- users.models.UserModel (the fields the booking engine reads/writes). -/
structure User where
  id : Nat
  role : Role
  balance : Int
  is_verified : Bool
deriving DecidableEq

/-- vehicles.models.VehicleModel (the fields the booking engine reads/writes). -/
structure Vehicle where
  id : Nat
  daily_price : Int
  status : VehicleStatus
  current_station : Option Nat
deriving DecidableEq

/-- stations.models.StationModel (coordinates are only ever fed to
is_near_station, whose boolean outcome is passed in explicitly). -/
structure Station where
  id : Nat
  is_active : Bool
deriving DecidableEq

/-- rentals.models.RentalModel. -/
structure Rental where
  id : Nat
  client : Nat
  car : Nat
  pickup_station : Option Nat
  return_station : Option Nat
  start_date : Int
  end_date : Int
  total_amount : Int
  status : RentalStatus
deriving DecidableEq

/-- rentals.models.ReservationModel. -/
structure Reservation where
  id : Nat
  client : Nat
  car : Nat
  start_date : Int
  end_date : Int
  status : ReservationStatus
deriving DecidableEq

/-- The persisted state the booking engine operates on. -/
structure DB where
  users : List User
  vehicles : List Vehicle
  stations : List Station
  rentals : List Rental
  reservations : List Reservation
deriving DecidableEq

/-- Generic primary-key lookup (Model.objects.get / .filter(id=..).first()). -/
def findBy (key : α → Nat) (i : Nat) (l : List α) : Option α :=
  l.find? fun x => key x == i

/-- Generic row update: saving a record replaces the stored row with the same
primary key. -/
def replaceBy (key : α → Nat) (a : α) (l : List α) : List α :=
  l.map fun x => if key x == key a then a else x

def findUser (db : DB) (i : Nat) : Option User := findBy User.id i db.users

def findVehicle (db : DB) (i : Nat) : Option Vehicle := findBy Vehicle.id i db.vehicles

def findStation (db : DB) (i : Nat) : Option Station := findBy Station.id i db.stations

def findRental (db : DB) (i : Nat) : Option Rental := findBy Rental.id i db.rentals

def findReservation (db : DB) (i : Nat) : Option Reservation :=
  findBy Reservation.id i db.reservations

def updateUser (db : DB) (u : User) : DB :=
  { db with users := replaceBy User.id u db.users }

def updateVehicle (db : DB) (v : Vehicle) : DB :=
  { db with vehicles := replaceBy Vehicle.id v db.vehicles }

def updateRental (db : DB) (r : Rental) : DB :=
  { db with rentals := replaceBy Rental.id r db.rentals }

def updateReservation (db : DB) (r : Reservation) : DB :=
  { db with reservations := replaceBy Reservation.id r db.reservations }

def addRental (db : DB) (r : Rental) : DB :=
  { db with rentals := db.rentals ++ [r] }

def addReservation (db : DB) (r : Reservation) : DB :=
  { db with reservations := db.reservations ++ [r] }

def removeRental (db : DB) (i : Nat) : DB :=
  { db with rentals := db.rentals.filter fun r => r.id != i }

/-- Minutes per calendar day; a timestamp t falls on calendar day t.fdiv 1440. -/
def minutesPerDay : Int := 1440

/-- Python datetime.date() truncation: the calendar day of a timestamp. -/
def dateOf (t : Int) : Int := Int.fdiv t minutesPerDay

/-- (end_date.date() - start_date.date()).days -/
def day_count (s e : Int) : Int := dateOf e - dateOf s

/-- The views' pricing rule: day difference clamped to a minimum of 1. -/
def billedDays (s e : Int) : Int :=
  let d := day_count s e
  if d < 1 then 1 else d

/-- The lte/gte conflict query used throughout views.py:
start_date__lte=e, end_date__gte=s, i.e. rows whose interval touches [s,e]
under inclusive comparison on both bounds. -/
def confirmedReservationConflict (db : DB) (carId : Nat) (s e : Int) : Bool :=
  db.reservations.any fun r =>
    r.car == carId && decide (r.start_date ≤ e) && decide (r.end_date ≥ s)
      && r.status == ReservationStatus.confirmed

/-- Active-rental overlap query (same lte/gte convention). -/
def activeRentalConflict (db : DB) (carId : Nat) (s e : Int) : Bool :=
  db.rentals.any fun r =>
    r.car == carId && r.status == RentalStatus.active
      && decide (r.start_date ≤ e) && decide (r.end_date ≥ s)

/-- Confirmed-reservation overlap query excluding one reservation row
(the .exclude(pk=...) in ReservationViewSet.set_status). -/
def otherConfirmedConflict (db : DB) (carId : Nat) (s e : Int) (excludeId : Nat) : Bool :=
  db.reservations.any fun r =>
    r.car == carId && r.status == ReservationStatus.confirmed
      && decide (r.start_date ≤ e) && decide (r.end_date ≥ s) && r.id != excludeId

/-- Error responses of the embedded handlers, one constructor per distinct
error branch of views.py (plus lookup failures of Model.objects.get). -/
inductive ApiError where
  | userNotFound
  | vehicleNotFound
  | rentalNotFound
  | reservationNotFound
  | alreadyActiveRental
  | carReservedPeriod
  | insufficientBalance
  | vehicleNotAvailable
  | stationNotActive
  | invalidInterval
  | pastDate
  | cannotCancelActive
  | cannotCancelState (s : RentalStatus)
  | datesNotOrdered
  | newRangeConflicts
  | insufficientBalanceExtend
  | permissionDenied
  | invalidTransition (src tgt : RentalStatus)
  | carAlreadyReservedPeriod
  | missingReturnStation
  | onlyPendingDeletable
  | noActiveRental
  | multipleActiveRentals
  | stationNotFound
  | coordinatesRequired
  | notNearStation
  | alreadyHaveReservation
  | overlappingReservation
  | carRentedPeriod
  | cancelledReservationImmutable
  | confirmedToPendingForbidden
  | carRentedDuringPeriod
  | anotherConfirmedOverlap
  | cannotCancelReservation (s : ReservationStatus)
deriving DecidableEq

deriving instance DecidableEq for Except

/-- RentalModel.can_transition_to (rentals/models.py lines 68-75). -/
def can_transition_to (s : RentalStatus) (n : RentalStatus) : Bool :=
  match s with
  | RentalStatus.pending =>
      n == RentalStatus.active || n == RentalStatus.cancelled
  | RentalStatus.active =>
      n == RentalStatus.completed || n == RentalStatus.cancelled
  | RentalStatus.completed => false
  | RentalStatus.cancelled => false

/-- RentalViewSet.create (rentals/views.py lines 40-99).  The serializer
validation of the writable fields (car, pickup_station, start/end dates) runs
after the balance deduction inside the atomic block; since a validation
failure rolls the whole transaction back, the deduction is applied here only
on the all-checks-pass path, which yields the same final state.  The record
fields set by the view (client, PENDING status, total_amount) are stored on
the created row. -/
def rental_create (db : DB) (now : Int) (userId carId pickupId : Nat)
    (s e : Int) (newId : Nat) : Except ApiError (DB × Rental) :=
  match findUser db userId with
  | none => Except.error ApiError.userNotFound
  | some user =>
    match findVehicle db carId with
    | none => Except.error ApiError.vehicleNotFound
    | some vehicle =>
      if db.rentals.any (fun r => r.client == userId && r.status == RentalStatus.active) then
        Except.error ApiError.alreadyActiveRental
      else if confirmedReservationConflict db carId s e then
        Except.error ApiError.carReservedPeriod
      else
        let total := vehicle.daily_price * billedDays s e
        if user.balance < total then
          Except.error ApiError.insufficientBalance
        else if vehicle.status ≠ VehicleStatus.available then
          Except.error ApiError.vehicleNotAvailable
        else
          match findStation db pickupId with
          | none => Except.error ApiError.stationNotActive
          | some station =>
            if station.is_active = false then
              Except.error ApiError.stationNotActive
            else if e ≤ s then
              Except.error ApiError.invalidInterval
            else if s < now then
              Except.error ApiError.pastDate
            else
              let user' : User := { user with balance := user.balance - total }
              let rental : Rental :=
                { id := newId, client := userId, car := carId,
                  pickup_station := some pickupId, return_station := none,
                  start_date := s, end_date := e, total_amount := total,
                  status := RentalStatus.pending }
              Except.ok (addRental (updateUser db user') rental, rental)

/-- The generic serializer save performed by super().update() and
super().partial_update(): the request's writable date fields are stored on
the rental row while total_amount (a read-only serializer field) keeps its
old value — no repricing happens.  The serializer's field validators (vehicle
available, stations active, start before end, start not in the past) can
reject such a request, but they never write state and never recompute
total_amount, so an accepted request saves exactly this; the other writable
fields (car, pickup_station, return_station) are not carried by the embedded
request. -/
def serializer_save_dates (db : DB) (rental : Rental) (nsd ned : Option Int) : DB :=
  updateRental db { rental with start_date := nsd.getD rental.start_date,
                                end_date := ned.getD rental.end_date }

/-- RentalViewSet.update, client branch (rentals/views.py lines 101-207):
cancel request, or date change, or fall-through to the generic serializer
update (super().update(), which saves the writable date fields without
repricing).  The manager branch (lines 209-220) goes straight to the same
generic update. -/
def rental_update (db : DB) (userId rentalId : Nat)
    (new_status : Option RentalStatus) (new_start new_end : Option Int) :
    Except ApiError DB :=
  match findUser db userId with
  | none => Except.error ApiError.userNotFound
  | some user =>
    match findRental db rentalId with
    | none => Except.error ApiError.rentalNotFound
    | some rental =>
      if user.role = Role.client then
        if new_status = some RentalStatus.cancelled then
          if rental.status = RentalStatus.pending then
            let user' : User := { user with balance := user.balance + rental.total_amount }
            let rental' : Rental := { rental with status := RentalStatus.cancelled }
            Except.ok (updateRental (updateUser db user') rental')
          else if rental.status = RentalStatus.active then
            Except.error ApiError.cannotCancelActive
          else
            Except.error (ApiError.cannotCancelState rental.status)
        else if new_start.isSome || new_end.isSome then
          let s := new_start.getD rental.start_date
          let e := new_end.getD rental.end_date
          if e ≤ s then
            Except.error ApiError.datesNotOrdered
          else if confirmedReservationConflict db rental.car s e then
            Except.error ApiError.newRangeConflicts
          else
            match findVehicle db rental.car with
            | none => Except.error ApiError.vehicleNotFound
            | some vehicle =>
              let new_total := vehicle.daily_price * billedDays s e
              let difference := new_total - rental.total_amount
              if 0 < difference ∧ user.balance < difference then
                Except.error ApiError.insufficientBalanceExtend
              else
                -- charge the positive delta or refund abs(difference);
                -- in both cases the balance moves by -difference
                let user' : User := { user with balance := user.balance - difference }
                let rental' : Rental :=
                  { rental with start_date := s, end_date := e, total_amount := new_total }
                Except.ok (updateRental (updateUser db user') rental')
        else
          Except.ok (serializer_save_dates db rental new_start new_end)
      else
        Except.ok (serializer_save_dates db rental new_start new_end)

/-- RentalViewSet's PATCH handler (partial update, rentals/views.py lines
226-246): no ownership check, no state-machine check — after the role gate
(clients and managers both pass; with only those two roles the 403 is
unreachable) it hands the request to super().partial_update(), which saves
the provided writable date fields without repricing. -/
def rental_patch (db : DB) (userId rentalId : Nat) (nsd ned : Option Int) :
    Except ApiError DB :=
  match findUser db userId with
  | none => Except.error ApiError.userNotFound
  | some user =>
    match findRental db rentalId with
    | none => Except.error ApiError.rentalNotFound
    | some rental =>
      if user.role = Role.client ∨ user.role = Role.manager then
        Except.ok (serializer_save_dates db rental nsd ned)
      else
        Except.error ApiError.permissionDenied

/-- RentalViewSet.destroy (rentals/views.py lines 248-262).  For a client the
object lookup goes through get_queryset, which only exposes the client's own
rentals.  Note: the record is removed with no balance credit. -/
def rental_destroy (db : DB) (userId rentalId : Nat) : Except ApiError DB :=
  match findUser db userId with
  | none => Except.error ApiError.userNotFound
  | some user =>
    if user.role = Role.client then
      match db.rentals.find? (fun r => r.id == rentalId && r.client == userId) with
      | none => Except.error ApiError.rentalNotFound
      | some rental =>
        if rental.status ≠ RentalStatus.pending then
          Except.error ApiError.onlyPendingDeletable
        else
          Except.ok (removeRental db rentalId)
    else
      Except.error ApiError.permissionDenied

/-- RentalViewSet.set_status (rentals/views.py lines 274-337). -/
def rental_set_status (db : DB) (userId rentalId : Nat) (new_status : RentalStatus) :
    Except ApiError DB :=
  match findUser db userId with
  | none => Except.error ApiError.userNotFound
  | some user =>
    if user.role ≠ Role.manager then
      Except.error ApiError.permissionDenied
    else
      match findRental db rentalId with
      | none => Except.error ApiError.rentalNotFound
      | some rental =>
        if can_transition_to rental.status new_status = false then
          Except.error (ApiError.invalidTransition rental.status new_status)
        else if new_status = RentalStatus.cancelled ∧ rental.status = RentalStatus.active then
          Except.error ApiError.cannotCancelActive
        else if new_status = RentalStatus.active
            ∧ confirmedReservationConflict db rental.car rental.start_date rental.end_date then
          Except.error ApiError.carAlreadyReservedPeriod
        else if new_status = RentalStatus.completed ∧ rental.return_station = none then
          Except.error ApiError.missingReturnStation
        else
          match findVehicle db rental.car with
          | none => Except.error ApiError.vehicleNotFound
          | some vehicle =>
            let db1 := updateRental db { rental with status := new_status }
            if new_status = RentalStatus.active then
              Except.ok (updateVehicle db1 { vehicle with status := VehicleStatus.rented })
            else if new_status = RentalStatus.cancelled then
              match findUser db1 rental.client with
              | none => Except.error ApiError.userNotFound
              | some client =>
                let client' : User :=
                  { client with balance := client.balance + rental.total_amount }
                Except.ok (updateVehicle (updateUser db1 client')
                  { vehicle with status := VehicleStatus.available })
            else if new_status = RentalStatus.completed then
              Except.ok (updateVehicle db1 { vehicle with status := VehicleStatus.available })
            else
              Except.ok db1

/-- RentalViewSet.return_car_to_station (rentals/views.py lines 351-397).
coordsProvided is whether latitude/longitude were supplied; near is the value
of is_near_station(user_lat, user_lon, station.latitude, station.longitude),
i.e. whether the haversine distance is within settings.MAX_DISTANCE. -/
def return_car_to_station (db : DB) (userId : Nat) (stationId : Option Nat)
    (coordsProvided : Bool) (near : Bool) : Except ApiError DB :=
  match findUser db userId with
  | none => Except.error ApiError.userNotFound
  | some user =>
    if user.role ≠ Role.client then
      Except.error ApiError.permissionDenied
    else
      -- RentalModel.objects.get(client=user, status=ACTIVE): DoesNotExist on
      -- zero rows, MultipleObjectsReturned (an unhandled error) on several
      match db.rentals.filter
          (fun r => r.client == userId && r.status == RentalStatus.active) with
      | [] => Except.error ApiError.noActiveRental
      | rental :: rest =>
        if rest ≠ [] then
          Except.error ApiError.multipleActiveRentals
        else
          match stationId with
          | none => Except.error ApiError.stationNotFound
          | some sid =>
            match findStation db sid with
            | none => Except.error ApiError.stationNotFound
            | some _station =>
              if coordsProvided = false then
                Except.error ApiError.coordinatesRequired
              else if near = false then
                Except.error ApiError.notNearStation
              else
                let rental' : Rental :=
                  { rental with status := RentalStatus.completed,
                                return_station := some sid }
                let db1 := updateRental db rental'
                match findVehicle db1 rental.car with
                | none => Except.error ApiError.vehicleNotFound
                | some vehicle =>
                  Except.ok (updateVehicle db1
                    { vehicle with status := VehicleStatus.available,
                                   current_station := some sid })

/-- ReservationViewSet.create (rentals/views.py lines 419-484).  The trailing
super().create runs ReservationSerializer, whose writable-field validators
require the vehicle to be AVAILABLE and the interval to satisfy
start_date ≤ end_date and start_date ≥ now; the view stores client=user and
status=PENDING on the created row. -/
def reservation_create (db : DB) (now : Int) (userId carId : Nat)
    (s e : Int) (newId : Nat) : Except ApiError (DB × Reservation) :=
  match findUser db userId with
  | none => Except.error ApiError.userNotFound
  | some _user =>
    match findVehicle db carId with
    | none => Except.error ApiError.vehicleNotFound
    | some vehicle =>
      if db.reservations.any (fun r => r.client == userId && r.car == carId
          && (r.status == ReservationStatus.pending
              || r.status == ReservationStatus.confirmed)) then
        Except.error ApiError.alreadyHaveReservation
      else if db.reservations.any (fun r => r.client == userId && r.car == carId
          && (r.status == ReservationStatus.pending
              || r.status == ReservationStatus.confirmed)
          && decide (r.start_date ≤ e) && decide (r.end_date ≥ s)) then
        Except.error ApiError.overlappingReservation
      else if activeRentalConflict db carId s e then
        Except.error ApiError.carRentedPeriod
      else if vehicle.status ≠ VehicleStatus.available then
        Except.error ApiError.vehicleNotAvailable
      else if e < s then
        Except.error ApiError.invalidInterval
      else if s < now then
        Except.error ApiError.pastDate
      else
        let res : Reservation :=
          { id := newId, client := userId, car := carId,
            start_date := s, end_date := e, status := ReservationStatus.pending }
        Except.ok (addReservation db res, res)

/-- ReservationViewSet.set_status (rentals/views.py lines 508-587).  The
requested status arrives already parsed into the enum, so the "Invalid
status" branch for arbitrary strings has no counterpart here. -/
def reservation_set_status (db : DB) (userId resId : Nat)
    (new_status : ReservationStatus) : Except ApiError DB :=
  match findUser db userId with
  | none => Except.error ApiError.userNotFound
  | some user =>
    if user.role ≠ Role.manager then
      Except.error ApiError.permissionDenied
    else
      match findReservation db resId with
      | none => Except.error ApiError.reservationNotFound
      | some res =>
        if res.status = ReservationStatus.cancelled then
          Except.error ApiError.cancelledReservationImmutable
        else if res.status = ReservationStatus.confirmed
            ∧ new_status = ReservationStatus.pending then
          Except.error ApiError.confirmedToPendingForbidden
        else if new_status = ReservationStatus.confirmed
            ∧ activeRentalConflict db res.car res.start_date res.end_date then
          Except.error ApiError.carRentedDuringPeriod
        else if new_status = ReservationStatus.confirmed
            ∧ otherConfirmedConflict db res.car res.start_date res.end_date res.id then
          Except.error ApiError.anotherConfirmedOverlap
        else
          Except.ok (updateReservation db { res with status := new_status })

/-- ReservationViewSet.cancel (rentals/views.py lines 593-621). -/
def reservation_cancel (db : DB) (userId resId : Nat) : Except ApiError DB :=
  match findUser db userId with
  | none => Except.error ApiError.userNotFound
  | some user =>
    match findReservation db resId with
    | none => Except.error ApiError.reservationNotFound
    | some res =>
      if user.role ≠ Role.client ∨ res.client ≠ userId then
        Except.error ApiError.permissionDenied
      else if res.status = ReservationStatus.pending
          ∨ res.status = ReservationStatus.confirmed then
        Except.ok (updateReservation db { res with status := ReservationStatus.cancelled })
      else
        Except.error (ApiError.cannotCancelReservation res.status)

/-- One booking-engine request, for statements quantifying over every
operation. -/
inductive Op where
  | create (now : Int) (userId carId pickupId : Nat) (s e : Int) (newId : Nat)
  | update (userId rentalId : Nat) (new_status : Option RentalStatus)
      (new_start new_end : Option Int)
  | patch (userId rentalId : Nat) (new_start new_end : Option Int)
  | destroy (userId rentalId : Nat)
  | setStatus (userId rentalId : Nat) (new_status : RentalStatus)
  | returnCar (userId : Nat) (stationId : Option Nat) (coordsProvided near : Bool)
  | resCreate (now : Int) (userId carId : Nat) (s e : Int) (newId : Nat)
  | resSetStatus (userId resId : Nat) (new_status : ReservationStatus)
  | resCancel (userId resId : Nat)

/-- Dispatch one request against the state, discarding response bodies. -/
def apply_op (db : DB) : Op → Except ApiError DB
  | Op.create now uid carId pickupId s e newId =>
      (rental_create db now uid carId pickupId s e newId).map Prod.fst
  | Op.update uid rid ns nsd ned => rental_update db uid rid ns nsd ned
  | Op.patch uid rid nsd ned => rental_patch db uid rid nsd ned
  | Op.destroy uid rid => rental_destroy db uid rid
  | Op.setStatus uid rid ns => rental_set_status db uid rid ns
  | Op.returnCar uid sid cp near => return_car_to_station db uid sid cp near
  | Op.resCreate now uid carId s e newId =>
      (reservation_create db now uid carId s e newId).map Prod.fst
  | Op.resSetStatus uid rid ns => reservation_set_status db uid rid ns
  | Op.resCancel uid rid => reservation_cancel db uid rid

/-- The committed state of a handler result, if it succeeded. -/
def okState : Except ApiError DB → Option DB
  | Except.ok d => some d
  | Except.error _ => none

/-- A user's stored balance after a successful operation. -/
def balanceAfter (x : Except ApiError DB) (uid : Nat) : Option Int :=
  (okState x).bind fun d => (findUser d uid).map User.balance

/-- Every stored user balance is nonnegative. -/
def balances_nonneg (db : DB) : Prop := ∀ u ∈ db.users, 0 ≤ u.balance

/-- Every stored rental charge is nonnegative (true of every priced rental,
since prices are nonnegative and billed days are at least 1). -/
def amounts_nonneg (db : DB) : Prop := ∀ r ∈ db.rentals, 0 ≤ r.total_amount

instance (db : DB) : Decidable (balances_nonneg db) :=
  inferInstanceAs (Decidable (∀ u ∈ db.users, 0 ≤ u.balance))

instance (db : DB) : Decidable (amounts_nonneg db) :=
  inferInstanceAs (Decidable (∀ r ∈ db.rentals, 0 ≤ r.total_amount))

/-- State a successful PENDING→ACTIVE set-status leaves behind: the rental
saved as ACTIVE, the vehicle saved as RENTED, everything else untouched. -/
def set_active_result (db : DB) (r : Rental) (v : Vehicle) : DB :=
  updateVehicle (updateRental db { r with status := RentalStatus.active })
    { v with status := VehicleStatus.rented }

/-- Sample state: a manager (1), a client (2) with a PENDING rental (100) of
vehicle 10 over minutes 1440..4320, and a PENDING reservation (200) by another
client (3) overlapping that interval. -/
def dbA : DB :=
  { users :=
      [ { id := 1, role := Role.manager, balance := 0, is_verified := true },
        { id := 2, role := Role.client, balance := 1000, is_verified := true },
        { id := 3, role := Role.client, balance := 0, is_verified := true } ],
    vehicles :=
      [ { id := 10, daily_price := 100, status := VehicleStatus.available,
          current_station := some 20 } ],
    stations := [ { id := 20, is_active := true } ],
    rentals :=
      [ { id := 100, client := 2, car := 10, pickup_station := some 20,
          return_station := none, start_date := 1440, end_date := 4320,
          total_amount := 200, status := RentalStatus.pending } ],
    reservations :=
      [ { id := 200, client := 3, car := 10, start_date := 2000, end_date := 3000,
          status := ReservationStatus.pending } ] }

/-- Sample state: client 2 has one ACTIVE rental (300) of vehicle 10 over
minutes 0..1440; the vehicle is RENTED; stations 20 and 21 are active. -/
def dbB : DB :=
  { users :=
      [ { id := 1, role := Role.manager, balance := 0, is_verified := true },
        { id := 2, role := Role.client, balance := 1000, is_verified := true } ],
    vehicles :=
      [ { id := 10, daily_price := 100, status := VehicleStatus.rented,
          current_station := some 20 } ],
    stations := [ { id := 20, is_active := true }, { id := 21, is_active := true } ],
    rentals :=
      [ { id := 300, client := 2, car := 10, pickup_station := some 20,
          return_station := none, start_date := 0, end_date := 1440,
          total_amount := 100, status := RentalStatus.active } ],
    reservations := [] }

/-- State a successful return-to-station leaves behind: the rental saved as
COMPLETED with the return station recorded, the vehicle saved as AVAILABLE
and moved to that station. -/
def return_result (db : DB) (r : Rental) (v : Vehicle) (sid : Nat) : DB :=
  updateVehicle
    (updateRental db { r with status := RentalStatus.completed,
                              return_station := some sid })
    { v with status := VehicleStatus.available, current_station := some sid }

/-- Sample state: client 2 owns a COMPLETED rental (400) of vehicle 10, which
is AVAILABLE again; used to exercise the date-update path on a rental that is
not PENDING. -/
def dbC : DB :=
  { users :=
      [ { id := 1, role := Role.manager, balance := 0, is_verified := true },
        { id := 2, role := Role.client, balance := 1000, is_verified := true } ],
    vehicles :=
      [ { id := 10, daily_price := 100, status := VehicleStatus.available,
          current_station := some 20 } ],
    stations := [ { id := 20, is_active := true } ],
    rentals :=
      [ { id := 400, client := 2, car := 10, pickup_station := some 20,
          return_station := some 20, start_date := 1440, end_date := 2880,
          total_amount := 100, status := RentalStatus.completed } ],
    reservations := [] }

/-- The rental row RentalViewSet.create stores on success. -/
def created_rental (uid carId pickupId newId : Nat) (s e price : Int) : Rental :=
  { id := newId, client := uid, car := carId, pickup_station := some pickupId,
    return_station := none, start_date := s, end_date := e,
    total_amount := price * billedDays s e, status := RentalStatus.pending }

/-- The state RentalViewSet.create commits on success: the client debited by
the rental's total_amount and the new PENDING rental appended. -/
def create_result (db : DB) (u : User) (rental : Rental) : DB :=
  addRental (updateUser db { u with balance := u.balance - rental.total_amount }) rental

/-- Every stored rental's total_amount equals its vehicle's daily_price times
max(1, whole-calendar-day span of its current dates). -/
def pricing_okb (db : DB) : Bool :=
  db.rentals.all fun r =>
    match findVehicle db r.car with
    | none => true
    | some v =>
        r.total_amount == v.daily_price * max 1 (day_count r.start_date r.end_date)

/-! ### Lookup/update bookkeeping lemmas -/

theorem findBy_mem {key : α → Nat} {i : Nat} {l : List α} {a : α}
    (h : findBy key i l = some a) : a ∈ l :=
  List.mem_of_find?_eq_some h

theorem findBy_key {key : α → Nat} {i : Nat} {l : List α} {a : α}
    (h : findBy key i l = some a) : key a = i := by
  have := List.find?_some h
  simpa using this

theorem findBy_replaceBy_self {key : α → Nat} {i : Nat} {a : α} (b : α) {l : List α}
    (h : findBy key i l = some a) (hk : key b = i) :
    findBy key i (replaceBy key b l) = some b := by
  induction l with
  | nil => simp [findBy] at h
  | cons x xs ih =>
    simp only [findBy, replaceBy, List.map_cons]
    by_cases hx : key x = i
    · have hxb : (key x == key b) = true := by simp [hk, hx]
      rw [if_pos hxb]
      exact List.find?_cons_of_pos _ (by simp [hk])
    · have hxb : ¬ ((key x == key b) = true) := by simp [hk]; exact hx
      rw [if_neg hxb]
      rw [List.find?_cons_of_neg _ (by simp [hx])]
      have h' : findBy key i xs = some a := by
        rw [findBy, List.find?_cons_of_neg _ (by simp [hx])] at h
        exact h
      exact ih h'

theorem findBy_replaceBy_ne {key : α → Nat} {j : Nat} {b : α} {l : List α}
    (hk : key b ≠ j) : findBy key j (replaceBy key b l) = findBy key j l := by
  induction l with
  | nil => simp [findBy, replaceBy]
  | cons x xs ih =>
    simp only [findBy, replaceBy, List.map_cons] at ih ⊢
    by_cases hx : key x = key b
    · have hxb : (key x == key b) = true := by simp [hx]
      rw [if_pos hxb]
      rw [List.find?_cons_of_neg _ (by simp; exact hk)]
      rw [List.find?_cons_of_neg _ (by simp [hx]; exact hk)]
      exact ih
    · have hxb : ¬ ((key x == key b) = true) := by simp; exact hx
      rw [if_neg hxb]
      by_cases hxj : key x = j
      · rw [List.find?_cons_of_pos _ (by simp [hxj]),
          List.find?_cons_of_pos _ (by simp [hxj])]
      · rw [List.find?_cons_of_neg _ (by simp [hxj]),
          List.find?_cons_of_neg _ (by simp [hxj])]
        exact ih

theorem findBy_append_some {key : α → Nat} {i : Nat} {l : List α} (a : α) {x : α}
    (h : findBy key i l = some x) : findBy key i (l ++ [a]) = some x := by
  induction l with
  | nil => simp [findBy] at h
  | cons y ys ih =>
    simp only [findBy, List.cons_append] at h ⊢
    by_cases hy : key y = i
    · rw [List.find?_cons_of_pos _ (by simp [hy])] at h
      rw [List.find?_cons_of_pos _ (by simp [hy])]
      exact h
    · rw [List.find?_cons_of_neg _ (by simp [hy])] at h
      rw [List.find?_cons_of_neg _ (by simp [hy])]
      exact ih h

theorem mem_replaceBy {key : α → Nat} {b : α} {l : List α} {x : α}
    (hx : x ∈ replaceBy key b l) : x ∈ l ∨ x = b := by
  induction l with
  | nil => simp [replaceBy] at hx
  | cons y ys ih =>
    simp only [replaceBy, List.map_cons, List.mem_cons] at hx
    rcases hx with hx | hx
    · by_cases hy : key y = key b
      · right
        simpa [hy] using hx
      · left
        have : ¬ ((key y == key b) = true) := by simp; exact hy
        rw [if_neg this] at hx
        simp [hx]
    · rcases ih hx with h | h
      · left; exact List.mem_cons_of_mem _ h
      · right; exact h

theorem filter_replaceBy_nil {p : α → Bool} {key : α → Nat} {b : α} {l : List α}
    (hp : p b = false) (h : l.filter p = []) : (replaceBy key b l).filter p = [] := by
  induction l with
  | nil => simp [replaceBy]
  | cons x xs ih =>
    simp only [List.filter_cons] at h
    by_cases hx : p x = true
    · simp [hx] at h
    · simp only [hx, if_false] at h
      simp only [replaceBy, List.map_cons, List.filter_cons]
      by_cases hxb : key x = key b
      · rw [if_pos (by simp [hxb] : (key x == key b) = true)]
        simp only [hp, Bool.false_eq_true, if_false]
        exact ih h
      · rw [if_neg (by simp; exact hxb : ¬ ((key x == key b) = true))]
        simp only [hx, if_false]
        exact ih h

theorem filter_replaceBy_singleton {p : α → Bool} {key : α → Nat} {b r : α} {l : List α}
    (hp : p b = false) (h : l.filter p = [r]) (hkr : key r = key b) :
    (replaceBy key b l).filter p = [] := by
  induction l with
  | nil => simp at h
  | cons x xs ih =>
    simp only [List.filter_cons] at h
    by_cases hx : p x = true
    · simp only [hx, if_pos] at h
      have hxr : x = r := by
        have hh := List.cons_eq_cons.mp h
        exact hh.1
      have hxs : xs.filter p = [] := (List.cons_eq_cons.mp h).2
      simp only [replaceBy, List.map_cons, List.filter_cons]
      have hkx : key x = key b := by rw [hxr]; exact hkr
      rw [if_pos (by simp [hkx] : (key x == key b) = true)]
      simp only [hp, Bool.false_eq_true, if_false]
      exact filter_replaceBy_nil hp hxs
    · simp only [hx, if_false] at h
      simp only [replaceBy, List.map_cons, List.filter_cons]
      by_cases hxb : key x = key b
      · rw [if_pos (by simp [hxb] : (key x == key b) = true)]
        simp only [hp, Bool.false_eq_true, if_false]
        exact ih h
      · rw [if_neg (by simp; exact hxb : ¬ ((key x == key b) = true))]
        simp only [hx, if_false]
        exact ih h

/-- C1 counterexample: in dbA the manager successfully activates the PENDING
rental 100, whose interval [1440,4320] overlaps the PENDING reservation 200
([2000,3000]) for the same vehicle, yet reservation 200 is still PENDING
afterwards — the handler never cancels PENDING reservations, so the claim's
auto-cancellation clause is false. -/
theorem C1_counterexample :
    (okState (rental_set_status dbA 1 100 RentalStatus.active)).isSome = true ∧
    ((okState (rental_set_status dbA 1 100 RentalStatus.active)).bind
        (fun d => (findReservation d 200).map Reservation.status))
      = some ReservationStatus.pending := by
  decide

/-- C1 (amended): a manager's set-status to ACTIVE on a PENDING rental fails
with the conflict error when a CONFIRMED reservation overlaps the rental's
interval; otherwise it succeeds, marks the rental ACTIVE and the vehicle
RENTED, and leaves the reservation table — PENDING holds included — entirely
unchanged. -/
theorem C1_set_active (db : DB) (mid rid : Nat) (m : User) (r : Rental) (v : Vehicle)
    (hm : findUser db mid = some m) (hrole : m.role = Role.manager)
    (hr : findRental db rid = some r) (hst : r.status = RentalStatus.pending)
    (hv : findVehicle db r.car = some v) :
    (confirmedReservationConflict db r.car r.start_date r.end_date = true →
      rental_set_status db mid rid RentalStatus.active
        = Except.error ApiError.carAlreadyReservedPeriod) ∧
    (confirmedReservationConflict db r.car r.start_date r.end_date = false →
      rental_set_status db mid rid RentalStatus.active
          = Except.ok (set_active_result db r v) ∧
      findRental (set_active_result db r v) rid
          = some { r with status := RentalStatus.active } ∧
      findVehicle (set_active_result db r v) r.car
          = some { v with status := VehicleStatus.rented } ∧
      (set_active_result db r v).reservations = db.reservations) := by
  have hid : r.id = rid := findBy_key hr
  have hvid : v.id = r.car := findBy_key hv
  constructor
  · intro hconf
    simp [rental_set_status, hm, hrole, hr, hv, hst, hconf, can_transition_to]
  · intro hconf
    refine ⟨?_, ?_, ?_, ?_⟩
    · simp [rental_set_status, hm, hrole, hr, hv, hst, hconf, can_transition_to,
        set_active_result]
    · show findRental (set_active_result db r v) rid = _
      simp only [set_active_result, findRental, updateVehicle, updateRental]
      exact findBy_replaceBy_self _ hr hid
    · show findVehicle (set_active_result db r v) r.car = _
      simp only [set_active_result, findVehicle, updateVehicle, updateRental]
      exact findBy_replaceBy_self _ hv hvid
    · simp [set_active_result, updateVehicle, updateRental]

/-- C1 witness: the amended theorem applied to dbA, where no CONFIRMED
reservation conflicts, so activation succeeds with the stated result. -/
theorem C1_set_active_witness :
    rental_set_status dbA 1 100 RentalStatus.active
      = Except.ok (set_active_result dbA
          { id := 100, client := 2, car := 10, pickup_station := some 20,
            return_station := none, start_date := 1440, end_date := 4320,
            total_amount := 200, status := RentalStatus.pending }
          { id := 10, daily_price := 100, status := VehicleStatus.available,
            current_station := some 20 }) :=
  ((C1_set_active dbA 1 100
      { id := 1, role := Role.manager, balance := 0, is_verified := true }
      { id := 100, client := 2, car := 10, pickup_station := some 20,
        return_station := none, start_date := 1440, end_date := 4320,
        total_amount := 200, status := RentalStatus.pending }
      { id := 10, daily_price := 100, status := VehicleStatus.available,
        current_station := some 20 }
      (by decide) (by decide) (by decide) (by decide) (by decide)).2
    (by decide)).1

/-- C2: observed delete behaviour at the concrete input the claim and the
repository's own test exercise (PENDING rental 100, total_amount 200, owner
balance 1000).  A manager's delete is rejected outright; the owning client's
delete removes the record but credits nothing back, leaving the balance at
1000 instead of 1200; deleting a non-PENDING rental is rejected.  This
contradicts the claimed (and tested) full refund. -/
theorem C2_code_behavior :
    rental_destroy dbA 1 100 = Except.error ApiError.permissionDenied ∧
    ((okState (rental_destroy dbA 2 100)).map (fun d => findRental d 100)) = some none ∧
    balanceAfter (rental_destroy dbA 2 100) 2 = some 1000 ∧
    rental_destroy dbB 2 300 = Except.error ApiError.onlyPendingDeletable := by
  decide

/-- C6: with rental 300 ACTIVE, the manager's set-status to CANCELLED and the
client's cancel request both fail with the cannot-cancel-active error, and the
only set-status target a manager can successfully reach from ACTIVE is
COMPLETED (the return flow's terminal state). -/
theorem C6_active_cannot_cancel (db : DB) (mid cid rid : Nat) (m c : User) (r : Rental)
    (hm : findUser db mid = some m) (hmrole : m.role = Role.manager)
    (hc : findUser db cid = some c) (hcrole : c.role = Role.client)
    (hr : findRental db rid = some r) (hst : r.status = RentalStatus.active) :
    rental_set_status db mid rid RentalStatus.cancelled
        = Except.error ApiError.cannotCancelActive ∧
    rental_update db cid rid (some RentalStatus.cancelled) none none
        = Except.error ApiError.cannotCancelActive ∧
    (∀ ns db', rental_set_status db mid rid ns = Except.ok db' →
        ns = RentalStatus.completed) := by
  refine ⟨?_, ?_, ?_⟩
  · simp [rental_set_status, hm, hmrole, hr, hst, can_transition_to]
  · simp [rental_update, hc, hcrole, hr, hst]
  · intro ns db' h
    cases ns with
    | pending => simp [rental_set_status, hm, hmrole, hr, hst, can_transition_to] at h
    | active => simp [rental_set_status, hm, hmrole, hr, hst, can_transition_to] at h
    | completed => rfl
    | cancelled => simp [rental_set_status, hm, hmrole, hr, hst, can_transition_to] at h

/-- C6 witness: the two rejections at the concrete ACTIVE rental of dbB. -/
theorem C6_active_cannot_cancel_witness :
    rental_set_status dbB 1 300 RentalStatus.cancelled
        = Except.error ApiError.cannotCancelActive ∧
    rental_update dbB 2 300 (some RentalStatus.cancelled) none none
        = Except.error ApiError.cannotCancelActive :=
  have h := C6_active_cannot_cancel dbB 1 2 300
    { id := 1, role := Role.manager, balance := 0, is_verified := true }
    { id := 2, role := Role.client, balance := 1000, is_verified := true }
    { id := 300, client := 2, car := 10, pickup_station := some 20,
      return_station := none, start_date := 0, end_date := 1440,
      total_amount := 100, status := RentalStatus.active }
    (by decide) (by decide) (by decide) (by decide) (by decide) (by decide)
  ⟨h.1, h.2.1⟩

/-- C8: a client with exactly one ACTIVE rental returning the car at an
existing station: when the reported coordinates are not within the configured
distance the call fails with the not-near-station error; when they are, the
call succeeds and atomically records rental COMPLETED with return_station set,
and vehicle AVAILABLE at that station; and a second identical call then fails
because no ACTIVE rental remains. -/
theorem C8_return_to_station (db : DB) (cid sid : Nat) (c : User) (r : Rental)
    (stn : Station) (v : Vehicle)
    (hc : findUser db cid = some c) (hcrole : c.role = Role.client)
    (hact : db.rentals.filter
        (fun x => x.client == cid && x.status == RentalStatus.active) = [r])
    (hrid : findRental db r.id = some r)
    (hs : findStation db sid = some stn)
    (hv : findVehicle db r.car = some v) :
    return_car_to_station db cid (some sid) true false
        = Except.error ApiError.notNearStation ∧
    return_car_to_station db cid (some sid) true true
        = Except.ok (return_result db r v sid) ∧
    findRental (return_result db r v sid) r.id
        = some { r with status := RentalStatus.completed,
                        return_station := some sid } ∧
    findVehicle (return_result db r v sid) r.car
        = some { v with status := VehicleStatus.available,
                        current_station := some sid } ∧
    return_car_to_station (return_result db r v sid) cid (some sid) true true
        = Except.error ApiError.noActiveRental := by
  have hvid : v.id = r.car := findBy_key hv
  have hv1 : findVehicle (updateRental db
      { r with status := RentalStatus.completed, return_station := some sid }) r.car
      = some v := by
    simpa [findVehicle, updateRental] using hv
  refine ⟨?_, ?_, ?_, ?_, ?_⟩
  · simp [return_car_to_station, hc, hcrole, hact, hs]
  · simp [return_car_to_station, hc, hcrole, hact, hs, hv1, return_result]
  · show findRental (return_result db r v sid) r.id = _
    simp only [return_result, findRental, updateVehicle, updateRental]
    exact findBy_replaceBy_self _ hrid rfl
  · show findVehicle (return_result db r v sid) r.car = _
    simp only [return_result, findVehicle, updateVehicle, updateRental]
    exact findBy_replaceBy_self _ hv hvid
  · have hc' : findUser (return_result db r v sid) cid = some c := by
      simpa [findUser, return_result, updateVehicle, updateRental] using hc
    have hfilter : (return_result db r v sid).rentals.filter
        (fun x => x.client == cid && x.status == RentalStatus.active) = [] := by
      simp only [return_result, updateVehicle, updateRental]
      exact filter_replaceBy_singleton (by simp) hact rfl
    simp [return_car_to_station, hc', hcrole, hfilter]

/-- C8 witness: the theorem applied to dbB (client 2's ACTIVE rental 300,
returning vehicle 10 at station 21). -/
theorem C8_return_to_station_witness :
    return_car_to_station dbB 2 (some 21) true false
        = Except.error ApiError.notNearStation ∧
    return_car_to_station dbB 2 (some 21) true true
        = Except.ok (return_result dbB
            { id := 300, client := 2, car := 10, pickup_station := some 20,
              return_station := none, start_date := 0, end_date := 1440,
              total_amount := 100, status := RentalStatus.active }
            { id := 10, daily_price := 100, status := VehicleStatus.rented,
              current_station := some 20 } 21) ∧
    return_car_to_station (return_result dbB
            { id := 300, client := 2, car := 10, pickup_station := some 20,
              return_station := none, start_date := 0, end_date := 1440,
              total_amount := 100, status := RentalStatus.active }
            { id := 10, daily_price := 100, status := VehicleStatus.rented,
              current_station := some 20 } 21) 2 (some 21) true true
        = Except.error ApiError.noActiveRental :=
  have h := C8_return_to_station dbB 2 21
    { id := 2, role := Role.client, balance := 1000, is_verified := true }
    { id := 300, client := 2, car := 10, pickup_station := some 20,
      return_station := none, start_date := 0, end_date := 1440,
      total_amount := 100, status := RentalStatus.active }
    { id := 21, is_active := true }
    { id := 10, daily_price := 100, status := VehicleStatus.rented,
      current_station := some 20 }
    (by decide) (by decide) (by decide) (by decide) (by decide) (by decide)
  ⟨h.1, h.2.1, h.2.2.2.2⟩

/-- C7: confirming a PENDING reservation as a manager succeeds (saving status
CONFIRMED) exactly when no ACTIVE rental of the same vehicle and no other
CONFIRMED reservation overlaps its interval under the inclusive
start <= other_end and other_start <= end comparison; each kind of overlap
yields the corresponding conflict error. -/
theorem C7_confirm_reservation (db : DB) (mid resId : Nat) (m : User) (res : Reservation)
    (hm : findUser db mid = some m) (hmrole : m.role = Role.manager)
    (hres : findReservation db resId = some res)
    (hst : res.status = ReservationStatus.pending) :
    (activeRentalConflict db res.car res.start_date res.end_date = false →
     otherConfirmedConflict db res.car res.start_date res.end_date res.id = false →
      reservation_set_status db mid resId ReservationStatus.confirmed
        = Except.ok (updateReservation db
            { res with status := ReservationStatus.confirmed })) ∧
    (activeRentalConflict db res.car res.start_date res.end_date = true →
      reservation_set_status db mid resId ReservationStatus.confirmed
        = Except.error ApiError.carRentedDuringPeriod) ∧
    (activeRentalConflict db res.car res.start_date res.end_date = false →
     otherConfirmedConflict db res.car res.start_date res.end_date res.id = true →
      reservation_set_status db mid resId ReservationStatus.confirmed
        = Except.error ApiError.anotherConfirmedOverlap) := by
  refine ⟨?_, ?_, ?_⟩
  · intro h1 h2
    simp [reservation_set_status, hm, hmrole, hres, hst, h1, h2]
  · intro h1
    simp [reservation_set_status, hm, hmrole, hres, hst, h1]
  · intro h1 h2
    simp [reservation_set_status, hm, hmrole, hres, hst, h1, h2]

/-- C7 witness: in dbA no ACTIVE rental and no other CONFIRMED reservation
conflicts with reservation 200, so the manager's confirm succeeds. -/
theorem C7_confirm_reservation_witness :
    reservation_set_status dbA 1 200 ReservationStatus.confirmed
      = Except.ok (updateReservation dbA
          { id := 200, client := 3, car := 10, start_date := 2000, end_date := 3000,
            status := ReservationStatus.confirmed }) :=
  (C7_confirm_reservation dbA 1 200
      { id := 1, role := Role.manager, balance := 0, is_verified := true }
      { id := 200, client := 3, car := 10, start_date := 2000, end_date := 3000,
        status := ReservationStatus.pending }
      (by decide) (by decide) (by decide) (by decide)).1 (by decide) (by decide)

/-- C10: the client date-update branch checks the dates, confirmed-reservation
conflicts and the balance delta, but never the rental's status: for a rental
in any status whatsoever it reprices to daily_price * max(1, day span) and
moves the owner's balance by the price delta. -/
theorem C10_update_dates_any_status (db : DB) (uid rid : Nat) (u : User) (r : Rental)
    (v : Vehicle) (s e : Int)
    (hu : findUser db uid = some u) (hurole : u.role = Role.client)
    (hr : findRental db rid = some r)
    (hv : findVehicle db r.car = some v)
    (hord : s < e)
    (hconf : confirmedReservationConflict db r.car s e = false)
    (hbal : 0 < v.daily_price * billedDays s e - r.total_amount →
        v.daily_price * billedDays s e - r.total_amount ≤ u.balance) :
    rental_update db uid rid none (some s) (some e)
      = Except.ok (updateRental
          (updateUser db { u with balance :=
              u.balance - (v.daily_price * billedDays s e - r.total_amount) })
          { r with start_date := s, end_date := e,
                   total_amount := v.daily_price * billedDays s e }) ∧
    findRental (updateRental
          (updateUser db { u with balance :=
              u.balance - (v.daily_price * billedDays s e - r.total_amount) })
          { r with start_date := s, end_date := e,
                   total_amount := v.daily_price * billedDays s e }) rid
      = some { r with start_date := s, end_date := e,
                      total_amount := v.daily_price * billedDays s e } ∧
    findUser (updateRental
          (updateUser db { u with balance :=
              u.balance - (v.daily_price * billedDays s e - r.total_amount) })
          { r with start_date := s, end_date := e,
                   total_amount := v.daily_price * billedDays s e }) uid
      = some { u with balance :=
              u.balance - (v.daily_price * billedDays s e - r.total_amount) } := by
  have huid : u.id = uid := findBy_key hu
  have hrid : r.id = rid := findBy_key hr
  have hguard : ¬ (0 < v.daily_price * billedDays s e - r.total_amount
      ∧ u.balance < v.daily_price * billedDays s e - r.total_amount) :=
    fun h => absurd (hbal h.1) (not_le.mpr h.2)
  refine ⟨?_, ?_, ?_⟩
  · simp [rental_update, hu, hurole, hr, hv, hconf, not_le.mpr hord, hguard]
    intro h
    have h2 := hbal (by omega)
    omega
  · simp only [findRental, updateRental, updateUser]
    exact findBy_replaceBy_self _ hr hrid
  · simp only [findUser, updateRental, updateUser]
    exact findBy_replaceBy_self _ hu huid

/-- C10 witness: in dbC the rental being updated is COMPLETED, and the date
change still succeeds, repricing 1440..4320 to 2 days * 100 and debiting the
delta of 100. -/
theorem C10_update_dates_any_status_witness :
    rental_update dbC 2 400 none (some 1440) (some 4320)
      = Except.ok (updateRental
          (updateUser dbC { id := 2, role := Role.client, balance := 900,
                            is_verified := true })
          { id := 400, client := 2, car := 10, pickup_station := some 20,
            return_station := some 20, start_date := 1440, end_date := 4320,
            total_amount := 200, status := RentalStatus.completed }) :=
  (C10_update_dates_any_status dbC 2 400
    { id := 2, role := Role.client, balance := 1000, is_verified := true }
    { id := 400, client := 2, car := 10, pickup_station := some 20,
      return_station := some 20, start_date := 1440, end_date := 2880,
      total_amount := 100, status := RentalStatus.completed }
    { id := 10, daily_price := 100, status := VehicleStatus.available,
      current_station := some 20 }
    1440 4320
    (by decide) (by decide) (by decide) (by decide) (by decide) (by decide)
    (by decide)).1

theorem rental_create_ok {db : DB} {now : Int} {uid carId pickupId : Nat}
    {s e : Int} {newId : Nat} {db1 : DB} {r : Rental}
    (h : rental_create db now uid carId pickupId s e newId = Except.ok (db1, r)) :
    ∃ u vehicle, findUser db uid = some u ∧ findVehicle db carId = some vehicle ∧
      vehicle.daily_price * billedDays s e ≤ u.balance ∧
      r = created_rental uid carId pickupId newId s e vehicle.daily_price ∧
      db1 = create_result db u r := by
  simp only [rental_create] at h
  cases hu : findUser db uid with
  | none => rw [hu] at h; cases h
  | some u =>
  rw [hu] at h
  cases hv : findVehicle db carId with
  | none => rw [hv] at h; cases h
  | some vehicle =>
  rw [hv] at h
  simp only at h
  by_cases h1 : (db.rentals.any fun x =>
      x.client == uid && x.status == RentalStatus.active) = true
  · rw [if_pos h1] at h; cases h
  rw [if_neg h1] at h
  by_cases h2 : confirmedReservationConflict db carId s e = true
  · rw [if_pos h2] at h; cases h
  rw [if_neg h2] at h
  by_cases h3 : u.balance < vehicle.daily_price * billedDays s e
  · rw [if_pos h3] at h; cases h
  rw [if_neg h3] at h
  by_cases h4 : vehicle.status ≠ VehicleStatus.available
  · rw [if_pos h4] at h; cases h
  rw [if_neg h4] at h
  cases hstn : findStation db pickupId with
  | none => rw [hstn] at h; cases h
  | some station =>
  rw [hstn] at h
  simp only at h
  by_cases h5 : station.is_active = false
  · rw [if_pos h5] at h; cases h
  rw [if_neg h5] at h
  by_cases h6 : e ≤ s
  · rw [if_pos h6] at h; cases h
  rw [if_neg h6] at h
  by_cases h7 : s < now
  · rw [if_pos h7] at h; cases h
  rw [if_neg h7] at h
  obtain ⟨hdb, hr⟩ : _ ∧ _ := by simpa using h
  refine ⟨u, vehicle, rfl, rfl, not_lt.mp h3, ?_, ?_⟩
  · rw [← hr]; rfl
  · rw [← hdb, ← hr]; rfl

theorem rental_update_ok {db : DB} {uid rid : Nat} {ns : Option RentalStatus}
    {nsd ned : Option Int} {db1 : DB}
    (h : rental_update db uid rid ns nsd ned = Except.ok db1) :
    ∃ u rental, findUser db uid = some u ∧ findRental db rid = some rental ∧
      (((u.role ≠ Role.client ∨ (¬ ns = some RentalStatus.cancelled ∧ nsd = none ∧ ned = none)) ∧
         db1 = serializer_save_dates db rental nsd ned) ∨
       (u.role = Role.client ∧ ns = some RentalStatus.cancelled ∧
         rental.status = RentalStatus.pending ∧
         db1 = updateRental
           (updateUser db { u with balance := u.balance + rental.total_amount })
           { rental with status := RentalStatus.cancelled }) ∨
       (u.role = Role.client ∧ ¬ ns = some RentalStatus.cancelled ∧
         ∃ vehicle, findVehicle db rental.car = some vehicle ∧
           (0 < vehicle.daily_price
                * billedDays (nsd.getD rental.start_date) (ned.getD rental.end_date)
                - rental.total_amount →
              vehicle.daily_price
                * billedDays (nsd.getD rental.start_date) (ned.getD rental.end_date)
                - rental.total_amount ≤ u.balance) ∧
           db1 = updateRental
             (updateUser db { u with balance := u.balance -
               (vehicle.daily_price
                  * billedDays (nsd.getD rental.start_date) (ned.getD rental.end_date)
                - rental.total_amount) })
             { rental with
                 start_date := nsd.getD rental.start_date,
                 end_date := ned.getD rental.end_date,
                 total_amount := vehicle.daily_price
                   * billedDays (nsd.getD rental.start_date) (ned.getD rental.end_date) })) := by
  simp only [rental_update] at h
  cases hu : findUser db uid with
  | none => rw [hu] at h; cases h
  | some u =>
  rw [hu] at h
  cases hr : findRental db rid with
  | none => rw [hr] at h; cases h
  | some rental =>
  rw [hr] at h
  simp only at h
  refine ⟨u, rental, rfl, rfl, ?_⟩
  by_cases hrole : u.role = Role.client
  swap
  · rw [if_neg hrole] at h
    exact Or.inl ⟨Or.inl hrole, (by simpa using h.symm)⟩
  rw [if_pos hrole] at h
  by_cases hcanc : ns = some RentalStatus.cancelled
  · rw [if_pos hcanc] at h
    by_cases hpend : rental.status = RentalStatus.pending
    · rw [if_pos hpend] at h
      exact Or.inr (Or.inl ⟨hrole, hcanc, hpend, (by simpa using h.symm)⟩)
    · rw [if_neg hpend] at h
      by_cases hact : rental.status = RentalStatus.active
      · rw [if_pos hact] at h; cases h
      · rw [if_neg hact] at h; cases h
  rw [if_neg hcanc] at h
  by_cases hdates : (nsd.isSome || ned.isSome) = true
  swap
  · rw [if_neg hdates] at h
    have hnone : nsd = none ∧ ned = none := by
      cases nsd <;> cases ned <;> simp_all
    exact Or.inl ⟨Or.inr ⟨hcanc, hnone.1, hnone.2⟩, (by simpa using h.symm)⟩
  rw [if_pos hdates] at h
  by_cases hord : ned.getD rental.end_date ≤ nsd.getD rental.start_date
  · rw [if_pos hord] at h; cases h
  rw [if_neg hord] at h
  by_cases hconf : confirmedReservationConflict db rental.car
      (nsd.getD rental.start_date) (ned.getD rental.end_date) = true
  · rw [if_pos hconf] at h; cases h
  rw [if_neg hconf] at h
  cases hv : findVehicle db rental.car with
  | none => rw [hv] at h; cases h
  | some vehicle =>
  rw [hv] at h
  simp only at h
  by_cases hguard : 0 < vehicle.daily_price
      * billedDays (nsd.getD rental.start_date) (ned.getD rental.end_date)
      - rental.total_amount
      ∧ u.balance < vehicle.daily_price
        * billedDays (nsd.getD rental.start_date) (ned.getD rental.end_date)
        - rental.total_amount
  · rw [if_pos hguard] at h; cases h
  rw [if_neg hguard] at h
  refine Or.inr (Or.inr ⟨hrole, hcanc, vehicle, rfl, ?_, (by simpa using h.symm)⟩)
  intro hpos
  by_contra hlt
  exact hguard ⟨hpos, not_le.mp hlt⟩

theorem rental_destroy_ok {db : DB} {uid rid : Nat} {db1 : DB}
    (h : rental_destroy db uid rid = Except.ok db1) : db1 = removeRental db rid := by
  simp only [rental_destroy] at h
  cases hu : findUser db uid with
  | none => rw [hu] at h; cases h
  | some u =>
  rw [hu] at h
  simp only at h
  by_cases hrole : u.role = Role.client
  swap
  · rw [if_neg hrole] at h; cases h
  rw [if_pos hrole] at h
  cases hr : db.rentals.find? (fun r => r.id == rid && r.client == uid) with
  | none => rw [hr] at h; cases h
  | some rental =>
  rw [hr] at h
  simp only at h
  by_cases hst : rental.status ≠ RentalStatus.pending
  · rw [if_pos hst] at h; cases h
  rw [if_neg hst] at h
  exact (by simpa using h.symm)

theorem rental_patch_ok {db : DB} {uid rid : Nat} {nsd ned : Option Int} {db1 : DB}
    (h : rental_patch db uid rid nsd ned = Except.ok db1) :
    ∃ rental, findRental db rid = some rental ∧
      db1 = serializer_save_dates db rental nsd ned := by
  simp only [rental_patch] at h
  cases hu : findUser db uid with
  | none => rw [hu] at h; cases h
  | some u =>
  rw [hu] at h
  cases hr : findRental db rid with
  | none => rw [hr] at h; cases h
  | some rental =>
  rw [hr] at h
  simp only at h
  by_cases hrole : u.role = Role.client ∨ u.role = Role.manager
  · rw [if_pos hrole] at h
    exact ⟨rental, rfl, (by simpa using h.symm)⟩
  · rw [if_neg hrole] at h; cases h

/-- Replacing one vehicle row by a row with the same id and daily_price leaves
every daily_price lookup unchanged. -/
theorem pricesAgree_replace {db dbnew : DB} {vehicle : Vehicle} (w : Vehicle)
    (hv : findVehicle db w.id = some vehicle) (hp : w.daily_price = vehicle.daily_price)
    (hveh : dbnew.vehicles = replaceBy Vehicle.id w db.vehicles) :
    ∀ c, (findVehicle dbnew c).map Vehicle.daily_price
        = (findVehicle db c).map Vehicle.daily_price := by
  intro c
  by_cases hc : w.id = c
  · subst hc
    have h1 : findVehicle dbnew w.id = some w := by
      show findBy Vehicle.id w.id dbnew.vehicles = some w
      rw [hveh]
      exact findBy_replaceBy_self _ hv rfl
    rw [h1, hv]
    simp [hp]
  · have h1 : findVehicle dbnew c = findVehicle db c := by
      show findBy Vehicle.id c dbnew.vehicles = findBy Vehicle.id c db.vehicles
      rw [hveh]
      exact findBy_replaceBy_ne hc
    rw [h1]

theorem rental_set_status_ok {db : DB} {uid rid : Nat} {ns : RentalStatus} {db1 : DB}
    (h : rental_set_status db uid rid ns = Except.ok db1) :
    ∃ rental, findRental db rid = some rental ∧
      db1.rentals = replaceBy Rental.id { rental with status := ns } db.rentals ∧
      (∀ c, (findVehicle db1 c).map Vehicle.daily_price
          = (findVehicle db c).map Vehicle.daily_price) ∧
      (db1.users = db.users ∨
        ∃ client, findUser db rental.client = some client ∧
          db1.users = replaceBy User.id
            { client with balance := client.balance + rental.total_amount } db.users) := by
  simp only [rental_set_status] at h
  cases hu : findUser db uid with
  | none => rw [hu] at h; cases h
  | some u =>
  rw [hu] at h
  simp only at h
  by_cases hrole : u.role ≠ Role.manager
  · rw [if_pos hrole] at h; cases h
  rw [if_neg hrole] at h
  cases hr : findRental db rid with
  | none => rw [hr] at h; cases h
  | some rental =>
  rw [hr] at h
  simp only at h
  by_cases h1 : can_transition_to rental.status ns = false
  · rw [if_pos h1] at h; cases h
  rw [if_neg h1] at h
  by_cases h2 : ns = RentalStatus.cancelled ∧ rental.status = RentalStatus.active
  · rw [if_pos h2] at h; cases h
  rw [if_neg h2] at h
  by_cases h3 : ns = RentalStatus.active
      ∧ confirmedReservationConflict db rental.car rental.start_date rental.end_date = true
  · rw [if_pos h3] at h; cases h
  rw [if_neg h3] at h
  by_cases h4 : ns = RentalStatus.completed ∧ rental.return_station = none
  · rw [if_pos h4] at h; cases h
  rw [if_neg h4] at h
  cases hv : findVehicle db rental.car with
  | none => rw [hv] at h; cases h
  | some vehicle =>
  rw [hv] at h
  simp only at h
  have hvid : vehicle.id = rental.car := findBy_key hv
  have hv' : findVehicle db vehicle.id = some vehicle := by rw [hvid]; exact hv
  refine ⟨rental, rfl, ?_⟩
  by_cases ha : ns = RentalStatus.active
  · rw [if_pos ha] at h
    obtain hdb := (by simpa using h.symm : db1 = _)
    subst hdb
    refine ⟨rfl, ?_, Or.inl rfl⟩
    exact pricesAgree_replace { vehicle with status := VehicleStatus.rented } hv' rfl rfl
  rw [if_neg ha] at h
  by_cases hcanc : ns = RentalStatus.cancelled
  · rw [if_pos hcanc] at h
    cases hcl : findUser (updateRental db { rental with status := ns }) rental.client with
    | none => rw [hcl] at h; cases h
    | some client =>
    rw [hcl] at h
    simp only at h
    obtain hdb := (by simpa using h.symm : db1 = _)
    subst hdb
    have hcl' : findUser db rental.client = some client := hcl
    refine ⟨rfl, ?_, Or.inr ⟨client, hcl', rfl⟩⟩
    exact pricesAgree_replace { vehicle with status := VehicleStatus.available } hv' rfl rfl
  rw [if_neg hcanc] at h
  by_cases hcomp : ns = RentalStatus.completed
  · rw [if_pos hcomp] at h
    obtain hdb := (by simpa using h.symm : db1 = _)
    subst hdb
    refine ⟨rfl, ?_, Or.inl rfl⟩
    exact pricesAgree_replace { vehicle with status := VehicleStatus.available } hv' rfl rfl
  rw [if_neg hcomp] at h
  obtain hdb := (by simpa using h.symm : db1 = _)
  subst hdb
  exact ⟨rfl, fun c => rfl, Or.inl rfl⟩

theorem return_car_ok {db : DB} {uid : Nat} {sid : Option Nat} {cp near : Bool} {db1 : DB}
    (h : return_car_to_station db uid sid cp near = Except.ok db1) :
    ∃ rental vehicle sidv, rental ∈ db.rentals ∧
      findVehicle db rental.car = some vehicle ∧
      db1.users = db.users ∧
      db1.rentals = replaceBy Rental.id
        { rental with status := RentalStatus.completed,
                       return_station := some sidv } db.rentals ∧
      (∀ c, (findVehicle db1 c).map Vehicle.daily_price
          = (findVehicle db c).map Vehicle.daily_price) := by
  simp only [return_car_to_station] at h
  cases hu : findUser db uid with
  | none => rw [hu] at h; cases h
  | some u =>
  rw [hu] at h
  simp only at h
  by_cases hrole : u.role ≠ Role.client
  · rw [if_pos hrole] at h; cases h
  rw [if_neg hrole] at h
  cases hfil : db.rentals.filter
      (fun r => r.client == uid && r.status == RentalStatus.active) with
  | nil => rw [hfil] at h; cases h
  | cons rental rest =>
  rw [hfil] at h
  simp only at h
  by_cases hrest : rest ≠ []
  · rw [if_pos hrest] at h; cases h
  rw [if_neg hrest] at h
  cases sid with
  | none => simp only at h; cases h
  | some sidv =>
  simp only at h
  cases hstn : findStation db sidv with
  | none => rw [hstn] at h; cases h
  | some station =>
  rw [hstn] at h
  simp only at h
  by_cases hcp : cp = false
  · rw [if_pos hcp] at h; cases h
  rw [if_neg hcp] at h
  by_cases hnear : near = false
  · rw [if_pos hnear] at h; cases h
  rw [if_neg hnear] at h
  cases hv : findVehicle
      (updateRental db { rental with status := RentalStatus.completed,
                                     return_station := some sidv }) rental.car with
  | none => rw [hv] at h; cases h
  | some vehicle =>
  rw [hv] at h
  simp only at h
  have hv0 : findVehicle db rental.car = some vehicle := hv
  have hvid : vehicle.id = rental.car := findBy_key hv0
  have hv' : findVehicle db vehicle.id = some vehicle := by rw [hvid]; exact hv0
  have hmem : rental ∈ db.rentals :=
    List.mem_of_mem_filter (by rw [hfil]; exact List.mem_cons_self _ _)
  obtain hdb := (by simpa using h.symm : db1 = _)
  subst hdb
  refine ⟨rental, vehicle, sidv, hmem, hv0, rfl, rfl, ?_⟩
  exact pricesAgree_replace
    { vehicle with status := VehicleStatus.available, current_station := some sidv }
    hv' rfl rfl

theorem reservation_create_ok {db : DB} {now : Int} {uid carId : Nat}
    {s e : Int} {newId : Nat} {db1 : DB} {res : Reservation}
    (h : reservation_create db now uid carId s e newId = Except.ok (db1, res)) :
    db1 = addReservation db res := by
  simp only [reservation_create] at h
  cases hu : findUser db uid with
  | none => rw [hu] at h; cases h
  | some u =>
  rw [hu] at h
  cases hv : findVehicle db carId with
  | none => rw [hv] at h; cases h
  | some vehicle =>
  rw [hv] at h
  simp only at h
  by_cases h1 : (db.reservations.any fun r => r.client == uid && r.car == carId
      && (r.status == ReservationStatus.pending
          || r.status == ReservationStatus.confirmed)) = true
  · rw [if_pos h1] at h; cases h
  rw [if_neg h1] at h
  by_cases h2 : (db.reservations.any fun r => r.client == uid && r.car == carId
      && (r.status == ReservationStatus.pending
          || r.status == ReservationStatus.confirmed)
      && decide (r.start_date ≤ e) && decide (r.end_date ≥ s)) = true
  · rw [if_pos h2] at h; cases h
  rw [if_neg h2] at h
  by_cases h3 : activeRentalConflict db carId s e = true
  · rw [if_pos h3] at h; cases h
  rw [if_neg h3] at h
  by_cases h4 : vehicle.status ≠ VehicleStatus.available
  · rw [if_pos h4] at h; cases h
  rw [if_neg h4] at h
  by_cases h5 : e < s
  · rw [if_pos h5] at h; cases h
  rw [if_neg h5] at h
  by_cases h6 : s < now
  · rw [if_pos h6] at h; cases h
  rw [if_neg h6] at h
  obtain ⟨hdb, hres⟩ : _ ∧ _ := by simpa using h
  rw [← hdb, ← hres]

theorem reservation_set_status_ok {db : DB} {uid resId : Nat}
    {ns : ReservationStatus} {db1 : DB}
    (h : reservation_set_status db uid resId ns = Except.ok db1) :
    db1.users = db.users ∧ db1.rentals = db.rentals ∧ db1.vehicles = db.vehicles := by
  simp only [reservation_set_status] at h
  cases hu : findUser db uid with
  | none => rw [hu] at h; cases h
  | some u =>
  rw [hu] at h
  simp only at h
  by_cases hrole : u.role ≠ Role.manager
  · rw [if_pos hrole] at h; cases h
  rw [if_neg hrole] at h
  cases hres : findReservation db resId with
  | none => rw [hres] at h; cases h
  | some res =>
  rw [hres] at h
  simp only at h
  by_cases h1 : res.status = ReservationStatus.cancelled
  · rw [if_pos h1] at h; cases h
  rw [if_neg h1] at h
  by_cases h2 : res.status = ReservationStatus.confirmed ∧ ns = ReservationStatus.pending
  · rw [if_pos h2] at h; cases h
  rw [if_neg h2] at h
  by_cases h3 : ns = ReservationStatus.confirmed
      ∧ activeRentalConflict db res.car res.start_date res.end_date = true
  · rw [if_pos h3] at h; cases h
  rw [if_neg h3] at h
  by_cases h4 : ns = ReservationStatus.confirmed
      ∧ otherConfirmedConflict db res.car res.start_date res.end_date res.id = true
  · rw [if_pos h4] at h; cases h
  rw [if_neg h4] at h
  obtain hdb := (by simpa using h.symm : db1 = _)
  subst hdb
  exact ⟨rfl, rfl, rfl⟩

theorem reservation_cancel_ok {db : DB} {uid resId : Nat} {db1 : DB}
    (h : reservation_cancel db uid resId = Except.ok db1) :
    db1.users = db.users ∧ db1.rentals = db.rentals ∧ db1.vehicles = db.vehicles := by
  simp only [reservation_cancel] at h
  cases hu : findUser db uid with
  | none => rw [hu] at h; cases h
  | some u =>
  rw [hu] at h
  cases hres : findReservation db resId with
  | none => rw [hres] at h; cases h
  | some res =>
  rw [hres] at h
  simp only at h
  by_cases h1 : u.role ≠ Role.client ∨ res.client ≠ uid
  · rw [if_pos h1] at h; cases h
  rw [if_neg h1] at h
  by_cases h2 : res.status = ReservationStatus.pending
      ∨ res.status = ReservationStatus.confirmed
  · rw [if_pos h2] at h
    obtain hdb := (by simpa using h.symm : db1 = _)
    subst hdb
    exact ⟨rfl, rfl, rfl⟩
  · rw [if_neg h2] at h; cases h

/-- C4: no booking-engine operation drives a stored balance negative — every
operation maps a state of nonnegative balances (with nonnegative stored rental
charges) to a state of nonnegative balances — and each of the two debiting
paths, when the balance is short of the amount, fails with its
insufficient-funds error (and, the handlers being transactional, an error
commits nothing). -/
theorem C4_balance_never_negative :
    (∀ db op db1, balances_nonneg db → amounts_nonneg db →
        apply_op db op = Except.ok db1 → balances_nonneg db1) ∧
    (∀ db (now : Int) uid carId pickupId (s e : Int) newId (u : User) (vehicle : Vehicle),
        findUser db uid = some u → findVehicle db carId = some vehicle →
        (db.rentals.any fun x => x.client == uid && x.status == RentalStatus.active)
            = false →
        confirmedReservationConflict db carId s e = false →
        u.balance < vehicle.daily_price * billedDays s e →
        rental_create db now uid carId pickupId s e newId
          = Except.error ApiError.insufficientBalance) ∧
    (∀ db uid rid (u : User) (rental : Rental) (vehicle : Vehicle) (s e : Int),
        findUser db uid = some u → u.role = Role.client →
        findRental db rid = some rental → findVehicle db rental.car = some vehicle →
        s < e → confirmedReservationConflict db rental.car s e = false →
        0 < vehicle.daily_price * billedDays s e - rental.total_amount →
        u.balance < vehicle.daily_price * billedDays s e - rental.total_amount →
        rental_update db uid rid none (some s) (some e)
          = Except.error ApiError.insufficientBalanceExtend) := by
  refine ⟨?_, ?_, ?_⟩
  · intro db op db1 hb ha h
    cases op with
    | create now uid carId pickupId s e newId =>
      simp only [apply_op] at h
      cases hc : rental_create db now uid carId pickupId s e newId with
      | error err => rw [hc] at h; cases h
      | ok p =>
        obtain ⟨pdb, pr⟩ := p
        rw [hc] at h
        simp only [Except.map] at h
        obtain hdb := (by simpa using h.symm : db1 = pdb)
        subst hdb
        obtain ⟨u, vehicle, hu, hv, hle, hrr, hdb1⟩ := rental_create_ok hc
        subst hdb1
        intro x hx
        simp only [create_result, addRental, updateUser] at hx
        rcases mem_replaceBy hx with hold | hnew
        · exact hb x hold
        · subst hnew
          show (0:Int) ≤ u.balance - pr.total_amount
          have hta : pr.total_amount = vehicle.daily_price * billedDays s e := by
            rw [hrr]; rfl
          rw [hta]
          exact sub_nonneg.mpr hle
    | update uid rid ns nsd ned =>
      simp only [apply_op] at h
      obtain ⟨u, rental, hu, hr, hcase⟩ := rental_update_ok h
      have hu0 : 0 ≤ u.balance := hb u (findBy_mem hu)
      have hr0 : 0 ≤ rental.total_amount := ha rental (findBy_mem hr)
      rcases hcase with ⟨_, hdb1⟩ | ⟨_, _, _, hdb1⟩ | ⟨_, _, vehicle, hv, hguard, hdb1⟩
      · subst hdb1
        intro x hx
        exact hb x hx
      · subst hdb1
        intro x hx
        simp only [updateRental, updateUser] at hx
        rcases mem_replaceBy hx with hold | hnew
        · exact hb x hold
        · subst hnew
          show (0:Int) ≤ u.balance + rental.total_amount
          linarith
      · subst hdb1
        intro x hx
        simp only [updateRental, updateUser] at hx
        rcases mem_replaceBy hx with hold | hnew
        · exact hb x hold
        · subst hnew
          show (0:Int) ≤ u.balance - (vehicle.daily_price
            * billedDays (nsd.getD rental.start_date) (ned.getD rental.end_date)
            - rental.total_amount)
          rcases le_or_lt (vehicle.daily_price
              * billedDays (nsd.getD rental.start_date) (ned.getD rental.end_date)
              - rental.total_amount) 0 with hle | hpos
          · linarith
          · have := hguard hpos
            linarith
    | patch uid rid nsd ned =>
      simp only [apply_op] at h
      obtain ⟨rental, hr, hdb1⟩ := rental_patch_ok h
      subst hdb1
      intro x hx
      exact hb x hx
    | destroy uid rid =>
      simp only [apply_op] at h
      have hdb1 := rental_destroy_ok h
      subst hdb1
      intro x hx
      exact hb x hx
    | setStatus uid rid ns =>
      simp only [apply_op] at h
      obtain ⟨rental, hr, _, _, husers⟩ := rental_set_status_ok h
      have hr0 : 0 ≤ rental.total_amount := ha rental (findBy_mem hr)
      rcases husers with heq | ⟨client, hcl, heq⟩
      · intro x hx; rw [heq] at hx; exact hb x hx
      · have hc0 : 0 ≤ client.balance := hb client (findBy_mem hcl)
        intro x hx
        rw [heq] at hx
        rcases mem_replaceBy hx with hold | hnew
        · exact hb x hold
        · subst hnew
          show (0:Int) ≤ client.balance + rental.total_amount
          linarith
    | returnCar uid sid cp near =>
      simp only [apply_op] at h
      obtain ⟨rental, vehicle, sidv, _, _, husers, _, _⟩ := return_car_ok h
      intro x hx; rw [husers] at hx; exact hb x hx
    | resCreate now uid carId s e newId =>
      simp only [apply_op] at h
      cases hc : reservation_create db now uid carId s e newId with
      | error err => rw [hc] at h; cases h
      | ok p =>
        obtain ⟨pdb, res⟩ := p
        rw [hc] at h
        simp only [Except.map] at h
        obtain hdb := (by simpa using h.symm : db1 = pdb)
        subst hdb
        have hdb1 := reservation_create_ok hc
        subst hdb1
        intro x hx
        exact hb x hx
    | resSetStatus uid resId ns =>
      simp only [apply_op] at h
      obtain ⟨husers, _, _⟩ := reservation_set_status_ok h
      intro x hx; rw [husers] at hx; exact hb x hx
    | resCancel uid resId =>
      simp only [apply_op] at h
      obtain ⟨husers, _, _⟩ := reservation_cancel_ok h
      intro x hx; rw [husers] at hx; exact hb x hx
  · intro db now uid carId pickupId s e newId u vehicle hu hv h1 h2 hlt
    simp [rental_create, hu, hv, h1, h2, hlt]
  · intro db uid rid u rental vehicle s e hu hrole hr hv hord hconf hpos hlt
    have hguard : 0 < vehicle.daily_price * billedDays s e - rental.total_amount
        ∧ u.balance < vehicle.daily_price * billedDays s e - rental.total_amount :=
      ⟨hpos, hlt⟩
    simp [rental_update, hu, hrole, hr, hv, hconf, not_le.mpr hord, hguard]

/-- C4 witness: the preservation component applied to a concrete activation of
rental 100 in dbA, and the two insufficient-funds rejections at concrete
short-balance inputs (a 100-day rental costing 10000 against balance 1000, and
an extension of rental 100 by 99 days costing 9800 more than its 200). -/
theorem C4_balance_never_negative_witness :
    balances_nonneg dbA ∧ amounts_nonneg dbA ∧
    (∀ db1, apply_op dbA (Op.setStatus 1 100 RentalStatus.active) = Except.ok db1 →
      balances_nonneg db1) ∧
    rental_create dbA 0 2 10 20 14400 158400 101
      = Except.error ApiError.insufficientBalance ∧
    rental_update dbA 2 100 none (some 1440) (some 144000)
      = Except.error ApiError.insufficientBalanceExtend := by
  refine ⟨by decide, by decide, ?_, ?_, ?_⟩
  · intro db1 h
    exact C4_balance_never_negative.1 dbA _ db1 (by decide) (by decide) h
  · exact C4_balance_never_negative.2.1 dbA 0 2 10 20 14400 158400 101
      { id := 2, role := Role.client, balance := 1000, is_verified := true }
      { id := 10, daily_price := 100, status := VehicleStatus.available,
        current_station := some 20 }
      (by decide) (by decide) (by decide) (by decide) (by decide)
  · exact C4_balance_never_negative.2.2 dbA 2 100
      { id := 2, role := Role.client, balance := 1000, is_verified := true }
      { id := 100, client := 2, car := 10, pickup_station := some 20,
        return_station := none, start_date := 1440, end_date := 4320,
        total_amount := 200, status := RentalStatus.pending }
      { id := 10, daily_price := 100, status := VehicleStatus.available,
        current_station := some 20 }
      1440 144000
      (by decide) (by decide) (by decide) (by decide) (by decide) (by decide)
      (by decide) (by decide)

theorem pricing_okb_iff {db : DB} : pricing_okb db = true ↔
    ∀ r ∈ db.rentals, ∀ v, findVehicle db r.car = some v →
      r.total_amount = v.daily_price * max 1 (day_count r.start_date r.end_date) := by
  rw [pricing_okb, List.all_eq_true]
  constructor
  · intro h r hr v hv
    have h1 := h r hr
    rw [hv] at h1
    simpa using h1
  · intro h r hr
    cases hv : findVehicle db r.car with
    | none => simp
    | some v => simpa using h r hr v hv


end RentCar
